import Mathlib

/-!
Verification of the PTP diagnostic engine (`ptp_diag.py`).

Shallow embedding of the probe-and-assess pipeline: the pmc response
parser (`parse_pmc_output`), the profile classifier (`pick_profile`
with `expected_intervals`), the health assessor (`assess`), the
management query wrapper (`pmc_query`), the session teardown
(`stop_ptp4l` / `try_probe`, modelled over an explicit filesystem and
process state with an oracle for the outcome of each OS call), and the
multi-transport ranking (`score`).

Python data values that the parser produces are integers, booleans or
strings; they are embedded as the tagged union `Value`.  Python `dict`s
(insertion-ordered, first-occurrence key update) are embedded as
association lists with Python's update semantics.  Character classes of
the regexes and of `str.strip` / `str.isdigit` / `int()` are modelled
over their ASCII behaviour, which is total on pmc output.
-/

/-- A parsed field value: `int`, `bool` or `str`, mirroring the dynamic
result type of the value-coercion in `parse_pmc_output`. -/
inductive Value where
  | int : Int → Value
  | bool : Bool → Value
  | str : String → Value
deriving DecidableEq

/-- Python truthiness of a parsed value (`bool(x)`): nonzero integers,
`True`, and non-empty strings are truthy. -/
def truthy : Value → Bool
  | .int n => n ≠ 0
  | .bool b => b
  | .str s => s ≠ ""

/-- Python `str(x)` on a parsed value. -/
def pyStr : Value → String
  | .int n => toString n
  | .bool b => if b then "True" else "False"
  | .str s => s

/-- Characters of Python's `\s` class / `str.strip()` default set
(ASCII behaviour). -/
def pySpaceChar (c : Char) : Bool :=
  c = ' ' || c = '\t' || c = '\n' || c = '\r' || c = '\x0b' || c = '\x0c'

/-- Characters of the regex class `[A-Za-z0-9_]`, which is also `\w`
restricted to ASCII. -/
def isWordChar (c : Char) : Bool := c.isAlphanum || c = '_'

/-- Characters of the regex class `[A-Z0-9_]` (the dataset-identifier
class of the header regex in `parse_pmc_output`). -/
def isUpperToken (c : Char) : Bool := c.isUpper || c.isDigit || c = '_'

/-- Python `str.strip()` (ASCII whitespace). -/
def pyStrip (s : String) : String :=
  String.mk (((s.toList.dropWhile pySpaceChar).reverse.dropWhile pySpaceChar).reverse)

/-- Python `str.lower()` (ASCII). -/
def pyLower (s : String) : String := String.mk (s.toList.map Char.toLower)

/-- Python `str.upper()` (ASCII). -/
def pyUpper (s : String) : String := String.mk (s.toList.map Char.toUpper)

/-- Python `str.isdigit()` (ASCII behaviour): non-empty and all decimal
digits. -/
def pyIsDigit (s : String) : Bool := !s.toList.isEmpty && s.toList.all Char.isDigit

/-- Line-break characters recognized by Python `str.splitlines`. -/
def isLineBreak (c : Char) : Bool :=
  c = '\n' || c = '\r' || c = '\x0b' || c = '\x0c' ||
  c = '\x1c' || c = '\x1d' || c = '\x1e' || c = '\x85' ||
  c = '\u2028' || c = '\u2029'

/-- Worker for `pySplitLines`: `acc` holds the current line reversed. -/
def pySplitLinesAux : List Char → List Char → List String
  | [], acc => if acc.isEmpty then [] else [String.mk acc.reverse]
  | '\r' :: '\n' :: rest2, acc => String.mk acc.reverse :: pySplitLinesAux rest2 []
  | '\r' :: rest, acc => String.mk acc.reverse :: pySplitLinesAux rest []
  | c :: rest, acc =>
    if isLineBreak c then String.mk acc.reverse :: pySplitLinesAux rest []
    else pySplitLinesAux rest (c :: acc)

/-- Python `str.splitlines()`: splits at line boundaries (`\r\n` counts
once); a trailing boundary produces no empty final line. -/
def pySplitLines (s : String) : List String := pySplitLinesAux s.toList []

/-- Decimal digits with optional single underscores between digits,
continuing an accumulated value — the tail of Python's decimal
`int()` grammar (PEP 515 underscores). -/
def decDigitsAux : Nat → List Char → Option Nat
  | acc, [] => some acc
  | acc, '_' :: c :: rest =>
    if c.isDigit then decDigitsAux (acc * 10 + (c.toNat - 48)) rest else none
  | acc, c :: rest =>
    if c.isDigit then decDigitsAux (acc * 10 + (c.toNat - 48)) rest else none

/-- An unsigned decimal literal as accepted by Python `int()`:
one or more digits with single underscores allowed between digits. -/
def decDigits : List Char → Option Nat
  | [] => none
  | c :: rest => if c.isDigit then decDigitsAux (c.toNat - 48) rest else none

/-- Python `int(s)` on a string (ASCII): strip whitespace, optional
sign, decimal digits with underscore grouping; `none` models the
`ValueError` path. -/
def pyIntString (s : String) : Option Int :=
  match (pyStrip s).toList with
  | '+' :: rest => (decDigits rest).map (fun n => (n : Int))
  | '-' :: rest => (decDigits rest).map (fun n => -(n : Int))
  | t => (decDigits t).map (fun n => (n : Int))

/-- Hexadecimal digit test for Python integer literals. -/
def pyIsHexDigit (c : Char) : Bool :=
  c.isDigit || ('a' ≤ c && c ≤ 'f') || ('A' ≤ c && c ≤ 'F')

/-- Value of a hexadecimal digit. -/
def hexVal (c : Char) : Nat :=
  if c.isDigit then c.toNat - 48
  else if 'a' ≤ c && c ≤ 'f' then c.toNat - 87
  else c.toNat - 55

/-- Hexadecimal digits with optional single underscores between digits,
continuing an accumulated value. -/
def hexDigitsAux : Nat → List Char → Option Nat
  | acc, [] => some acc
  | acc, '_' :: c :: rest =>
    if pyIsHexDigit c then hexDigitsAux (acc * 16 + hexVal c) rest else none
  | acc, c :: rest =>
    if pyIsHexDigit c then hexDigitsAux (acc * 16 + hexVal c) rest else none

/-- Python `int(s, 0)` for a string beginning with `0x` (the only case
in which `parse_pmc_output` calls it): `0x` then hex digits, with an
underscore permitted after the prefix and between digits. -/
def pyIntHex (s : String) : Option Int :=
  match s.toList with
  | '0' :: 'x' :: rest =>
    match rest with
    | [] => none
    | '_' :: c :: rest2 =>
      if pyIsHexDigit c then (hexDigitsAux (hexVal c) rest2).map Int.ofNat else none
    | c :: rest2 =>
      if pyIsHexDigit c then (hexDigitsAux (hexVal c) rest2).map Int.ofNat else none
  | _ => none

/-- Python `v.startswith("0x")`. -/
def startsWith0x (v : String) : Bool :=
  match v.toList with
  | '0' :: 'x' :: _ => true
  | _ => false

/-- The numeric branch of the coercion in `parse_pmc_output`:
`int(v, 0) if v.startswith("0x") else int(v)`, with `none` for the
caught exception. -/
def pyNumeric (v : String) : Option Int :=
  if startsWith0x v then pyIntHex v else pyIntString v

/-- The value coercion of `parse_pmc_output`: case-insensitive
`true`/`false` become booleans; otherwise the numeric conversion is
attempted; on failure the string is kept unchanged. -/
def coerceValue (v : String) : Value :=
  if pyLower v = "true" then .bool true
  else if pyLower v = "false" then .bool false
  else
    match pyNumeric v with
    | some n => .int n
    | none => .str v

/-- Python `int(x)` applied to a parsed value (used by the assessor's
numeric checks); `none` models the caught exception. -/
def pyIntOfValue : Value → Option Int
  | .int n => some n
  | .bool b => some (if b then 1 else 0)
  | .str s => pyIntString s

/-- One dataset: field name to value, a Python dict as an ordered
association list with distinct keys. -/
abbrev Dataset := List (String × Value)

/-- The parsed snapshot: dataset name to dataset. -/
abbrev Snapshot := List (String × Dataset)

/-- Python dict lookup `d.get(k)` on a dataset. -/
def dget : Dataset → String → Option Value
  | [], _ => none
  | (k', v) :: rest, k => if k' = k then some v else dget rest k

/-- Python dict assignment `d[k] = v` on a dataset: update in place if
the key exists, else append. -/
def dset : Dataset → String → Value → Dataset
  | [], k, v => [(k, v)]
  | (k', v') :: rest, k, v =>
    if k' = k then (k', v) :: rest else (k', v') :: dset rest k v

/-- The keys of a dataset, in insertion order. -/
def dkeys (d : Dataset) : List String := d.map (·.1)

/-- Python dict lookup `data.get(k)` on the snapshot. -/
def snapGet : Snapshot → String → Option Dataset
  | [], _ => none
  | (n, fs) :: rest, k => if n = k then some fs else snapGet rest k

/-- Python `data.get(k, {})` on the snapshot. -/
def snapGetD (s : Snapshot) (k : String) : Dataset := (snapGet s k).getD []

/-- The dataset names of the snapshot, in insertion order. -/
def snapKeys (s : Snapshot) : List String := s.map (·.1)

/-- Python `data.setdefault(k, {})` on the snapshot. -/
def setdefaultDS : Snapshot → String → Snapshot
  | [], h => [(h, [])]
  | (n, fs) :: rest, h =>
    if n = h then (n, fs) :: rest else (n, fs) :: setdefaultDS rest h

/-- Python `data[c][k] = v`: update the fields of dataset `c`.  In
`parse_pmc_output` the current dataset is always a key of `data`
(`setdefault` ran when its header was seen), so the no-op on a missing
dataset is unreachable. -/
def snapSet : Snapshot → String → String → Value → Snapshot
  | [], _, _, _ => []
  | (n, fs) :: rest, c, k, v =>
    if n = c then (n, dset fs k v) :: rest else (n, fs) :: snapSet rest c k v

/-- The field names stored under dataset `D` (empty when absent). -/
def dsFieldKeys (s : Snapshot) (D : String) : List String := dkeys (snapGetD s D)

/-- The three keywords of the dataset-header regex
`\b(RESPONSE|ANNOUNCE|MANAGEMENT)\b.*\b([A-Z0-9_]+)\b$`. -/
def pmcKeywords : List (List Char) :=
  ["RESPONSE".toList, "ANNOUNCE".toList, "MANAGEMENT".toList]

/-- True when position `i` is past the end or holds a non-word
character (used for `\b` word boundaries). -/
def nonWordAt (cs : List Char) (i : Nat) : Bool :=
  match cs.get? i with
  | some c => !isWordChar c
  | none => true

/-- The keyword `kw` occurs in `cs` at index `i` as a whole word
(`\bkw\b`): the text matches and both neighbours are non-word. -/
def wordOccursAt (cs kw : List Char) (i : Nat) : Bool :=
  decide ((cs.drop i).take kw.length = kw) &&
  (i == 0 || nonWordAt cs (i - 1)) &&
  nonWordAt cs (i + kw.length)

/-- Some header keyword occurs as a whole word ending at or before
index `bound` (the start of the trailing identifier run). -/
def hasKeyword (cs : List Char) (bound : Nat) : Bool :=
  pmcKeywords.any (fun kw =>
    (List.range (cs.length + 1)).any (fun i =>
      wordOccursAt cs kw i && decide (i + kw.length ≤ bound)))

/-- `re.search(r"\b(RESPONSE|ANNOUNCE|MANAGEMENT)\b.*\b([A-Z0-9_]+)\b$", line)`
on a stripped line, returning group 2.  The trailing group, anchored at
`$` with a `\b` before it, can only be the maximal trailing run of word
characters, and the match succeeds exactly when that run is non-empty,
lies in `[A-Z0-9_]`, and a whole-word keyword occurrence ends before
it. -/
def headerName (line : String) : Option String :=
  let cs := line.toList
  let run := (cs.reverse.takeWhile isWordChar).reverse
  if run.isEmpty then none
  else if run.all isUpperToken && hasKeyword cs (cs.length - run.length) then
    some (String.mk run)
  else none

/-- `re.match(r"([A-Za-z0-9_]+)\s+(.+)$", line)` on a stripped line,
returning `(group 1, group 2.strip())`.  On a stripped line (no
trailing whitespace) the greedy `\s+`/`.+` backtracking cannot put
whitespace into group 2, so group 2 is everything after the maximal
whitespace run that follows the key. -/
def kvMatch (line : String) : Option (String × String) :=
  let cs := line.toList
  let key := cs.takeWhile isWordChar
  let afterKey := cs.dropWhile isWordChar
  let ws := afterKey.takeWhile pySpaceChar
  let value := afterKey.dropWhile pySpaceChar
  if key.isEmpty || ws.isEmpty || value.isEmpty then none
  else some (String.mk key, pyStrip (String.mk value))

/-- One loop iteration of `parse_pmc_output`: strip the line, skip it
when empty, open a dataset on a header match, otherwise store a
`key value` field under the current dataset (ignoring the line when no
dataset is current or neither pattern matches). -/
def processLine (st : Snapshot × Option String) (raw : String) :
    Snapshot × Option String :=
  let line := pyStrip raw
  if line = "" then st
  else
    match headerName line with
    | some h => (setdefaultDS st.1 h, some h)
    | none =>
      match st.2 with
      | some c =>
        match kvMatch line with
        | some (k, v) => (snapSet st.1 c k (coerceValue v), st.2)
        | none => st
      | none => st

/-- `parse_pmc_output(text)`: fold the line processor over the lines of
the response text, starting with an empty snapshot and no current
dataset. -/
def parse_pmc_output (text : String) : Snapshot :=
  ((pySplitLines text).foldl processLine ([], none)).1

/-- The dataset identifiers of the recognized header lines, in order of
appearance. -/
def headerNamesOfLines (L : List String) : List String :=
  L.filterMap (fun l => headerName (pyStrip l))

/-- The keys of the well-formed `key value` lines that are processed
while dataset `D` is current, given the starting current dataset —
the reference trace for the parser's field bookkeeping. -/
def kvKeysUnder : Option String → List String → String → List String
  | _, [], _ => []
  | c, l :: L, D =>
    let line := pyStrip l
    if line = "" then kvKeysUnder c L D
    else
      match headerName line with
      | some h => kvKeysUnder (some h) L D
      | none =>
        match c with
        | some cur =>
          match kvMatch line with
          | some (k, _) =>
            if cur = D then k :: kvKeysUnder c L D else kvKeysUnder c L D
          | none => kvKeysUnder c L D
        | none => kvKeysUnder c L D

/-- `infer_transport`: maps the ptp4l transport flag to its label. -/
def infer_transport (flag_used : String) : String :=
  if flag_used = "-2" then "L2"
  else if flag_used = "-4" then "UDPv4"
  else if flag_used = "-6" then "UDPv6"
  else "Unknown"

/-- `pick_profile(transport, domain, delay_mech, log_sync, log_announce,
two_step)`: the profile decision table.  `dm` is
`(str(delay_mech) or "").upper()`; the `or ""` branch only replaces an
empty string by itself, so it is upper-casing.  The interval and
two-step arguments are accepted but, as in the source, never used in
the decision (the source coerces them to ints and discards the
result). -/
def pick_profile (transport : String) (domain : Int) (delay_mech : String)
    (log_sync log_announce : Option Value) (two_step : Bool) : String :=
  let dm := pyUpper delay_mech
  if transport = "L2" ∧ dm = "P2P" then
    if domain = 0 ∨ domain = 1 then "IEC/IEEE 61850-9-3 (Power Utility Profile)"
    else if domain = 24 then "ITU-T G.8275.1 (Telecom, full timing support)"
    else "L2 P2P (likely 9-3 or G.8275.1)"
  else if (transport = "UDPv4" ∨ transport = "UDPv6") ∧
      (dm = "E2E" ∨ dm = "AUTO" ∨ dm = "NONE") then
    if domain = 24 then "ITU-T G.8275.2 (Telecom, partial timing support)"
    else if domain = 0 then "IEEE 1588 Default Profile"
    else "IP E2E (likely Default/G.8275.2)"
  else "Unknown/Mixed"

/-- The expected-parameter envelope of a profile guess
(`expected_intervals`): required two-step flag, allowed log-sync and
log-announce exponents, expected delay mechanism. -/
structure Envelope where
  two_step : Option Bool
  log_sync : List Int
  log_announce : List Int
  delay_mech : Option String
deriving DecidableEq

/-- Python `needle in hay` on strings: substring test. -/
def pyIn (needle hay : String) : Bool := decide (needle.toList <:+: hay.toList)

/-- `expected_intervals(profile)`: substring-dispatch from the profile
label to its envelope. -/
def expected_intervals (profile : String) : Envelope :=
  if pyIn "9-3" profile then ⟨some true, [-4, -3], [0], some "P2P"⟩
  else if pyIn "G.8275.1" profile then ⟨some true, [-4, -3], [0], some "P2P"⟩
  else if pyIn "G.8275.2" profile then ⟨none, [-4, -3, -2], [0], some "E2E"⟩
  else if pyIn "Default" profile then ⟨none, [-4, -3, -2, 0], [0, 1], some "E2E"⟩
  else ⟨none, [], [], none⟩

/-- `data.get("TIME_STATUS_NP", {})` in `assess`. -/
def tsOf (data : Snapshot) : Dataset := snapGetD data "TIME_STATUS_NP"

/-- `data.get("DEFAULT_DATA_SET", {})` in `assess`. -/
def ddsOf (data : Snapshot) : Dataset := snapGetD data "DEFAULT_DATA_SET"

/-- `data.get("PARENT_DATA_SET", {})` in `assess`. -/
def pdsOf (data : Snapshot) : Dataset := snapGetD data "PARENT_DATA_SET"

/-- `data.get("TIME_PROPERTIES_DATA_SET", {})` in `assess`. -/
def tpsOf (data : Snapshot) : Dataset := snapGetD data "TIME_PROPERTIES_DATA_SET"

/-- `data.get("PORT_DATA_SET_NP", {})` in `assess`. -/
def pnpOf (data : Snapshot) : Dataset := snapGetD data "PORT_DATA_SET_NP"

/-- `data.get("CLOCK_DESCRIPTION", {})` in `assess`. -/
def cdOf (data : Snapshot) : Dataset := snapGetD data "CLOCK_DESCRIPTION"

/-- `data.get("DOMAIN", {})` in `assess`. -/
def domOf (data : Snapshot) : Dataset := snapGetD data "DOMAIN"

/-- `data.get("DELAY_MECHANISM", {})` in `assess`. -/
def dmechOf (data : Snapshot) : Dataset := snapGetD data "DELAY_MECHANISM"

/-- `data.get("LOG_SYNC_INTERVAL", {})` in `assess`. -/
def lsiOf (data : Snapshot) : Dataset := snapGetD data "LOG_SYNC_INTERVAL"

/-- `data.get("LOG_ANNOUNCE_INTERVAL", {})` in `assess`. -/
def laiOf (data : Snapshot) : Dataset := snapGetD data "LOG_ANNOUNCE_INTERVAL"

/-- `data.get("LOG_MIN_PDELAY_REQ_INTERVAL", {})` in `assess`. -/
def lpdiOf (data : Snapshot) : Dataset := snapGetD data "LOG_MIN_PDELAY_REQ_INTERVAL"

/-- Domain extraction in `assess`:
`get("DOMAIN","domainNumber", get("DEFAULT_DATA_SET","domainNumber", 0))`. -/
def domainOf (data : Snapshot) : Value :=
  ((dget (domOf data) "domainNumber").orElse
    (fun _ => dget (ddsOf data) "domainNumber")).getD (.int 0)

/-- Delay-mechanism extraction:
`dmech.get("delay_mechanism", pnp.get("delay_mechanism", "Auto"))`. -/
def delayMechOf (data : Snapshot) : Value :=
  ((dget (dmechOf data) "delay_mechanism").orElse
    (fun _ => dget (pnpOf data) "delay_mechanism")).getD (.str "Auto")

/-- Two-step extraction:
`bool(pnp.get("twoStep", pnp.get("two_step", False)))`. -/
def twoStepOf (data : Snapshot) : Bool :=
  truthy (((dget (pnpOf data) "twoStep").orElse
    (fun _ => dget (pnpOf data) "two_step")).getD (.bool false))

/-- `lsi.get("logSyncInterval", pnp.get("logSyncInterval"))`. -/
def logSyncOf (data : Snapshot) : Option Value :=
  (dget (lsiOf data) "logSyncInterval").orElse
    (fun _ => dget (pnpOf data) "logSyncInterval")

/-- `lai.get("logAnnounceInterval", pnp.get("logAnnounceInterval"))`. -/
def logAnnounceOf (data : Snapshot) : Option Value :=
  (dget (laiOf data) "logAnnounceInterval").orElse
    (fun _ => dget (pnpOf data) "logAnnounceInterval")

/-- `lpdi.get("logMinPdelayReqInterval", pnp.get("logMinPdelayReqInterval"))`. -/
def logPdelayOf (data : Snapshot) : Option Value :=
  (dget (lpdiOf data) "logMinPdelayReqInterval").orElse
    (fun _ => dget (pnpOf data) "logMinPdelayReqInterval")

/-- `ts.get("gmPresent", False)`. -/
def gmPresentOf (data : Snapshot) : Value :=
  (dget (tsOf data) "gmPresent").getD (.bool false)

/-- `ts.get("gmIdentity", pds.get("grandmasterIdentity"))`. -/
def gmIdentityOf (data : Snapshot) : Option Value :=
  (dget (tsOf data) "gmIdentity").orElse
    (fun _ => dget (pdsOf data) "grandmasterIdentity")

/-- `ts.get("master_offset")`. -/
def masterOffsetOf (data : Snapshot) : Option Value :=
  dget (tsOf data) "master_offset"

/-- `ts.get("meanPathDelay", ts.get("peerMeanPathDelay"))`. -/
def meanPathDelayOf (data : Snapshot) : Option Value :=
  (dget (tsOf data) "meanPathDelay").orElse
    (fun _ => dget (tsOf data) "peerMeanPathDelay")

/-- `pds.get("grandmasterClockClass", dds.get("clockClass"))`. -/
def clockClassOf (data : Snapshot) : Option Value :=
  (dget (pdsOf data) "grandmasterClockClass").orElse
    (fun _ => dget (ddsOf data) "clockClass")

/-- `tps.get("timeTraceable", None)`. -/
def timeTraceableOf (data : Snapshot) : Option Value :=
  dget (tpsOf data) "timeTraceable"

/-- `tps.get("frequencyTraceable", None)`. -/
def freqTraceableOf (data : Snapshot) : Option Value :=
  dget (tpsOf data) "frequencyTraceable"

/-- `cd.get("profileIdentity", pnp.get("profileIdentity"))`. -/
def profIdentityOf (data : Snapshot) : Option Value :=
  (dget (cdOf data) "profileIdentity").orElse
    (fun _ => dget (pnpOf data) "profileIdentity")

/-- The domain argument handed to `pick_profile`:
`int(domain) if str(domain).isdigit() else 0`.  When `str(domain)`
is all digits the conversion succeeds and the default is never used. -/
def domainForProfile (d : Value) : Int :=
  if pyIsDigit (pyStr d) then (pyIntOfValue d).getD 0 else 0

/-- The profile guess computed inside `assess`. -/
def profileOf (data : Snapshot) (transport : String) : String :=
  pick_profile transport (domainForProfile (domainOf data))
    (pyStr (delayMechOf data)) (logSyncOf data) (logAnnounceOf data)
    (twoStepOf data)

/-- Check 1 of `assess`: `if not gm_present: critical.append(...)`. -/
def gmCheck (gm : Value) : List String :=
  if truthy gm then [] else ["No grandmaster detected on this transport/config."]

/-- Check 2 of `assess` (master offset): critical above 10 ms, else
warning above 1 ms; a value `int()` cannot convert is skipped.
First component: critical messages; second: warning messages. -/
def offsetCheck (mo : Option Value) : List String × List String :=
  match mo with
  | none => ([], [])
  | some v =>
    match pyIntOfValue v with
    | none => ([], [])
    | some off =>
      if 10000000 < off.natAbs then
        (["Master offset " ++ toString off ++ " ns (>10 ms)."], [])
      else if 1000000 < off.natAbs then
        ([], ["Master offset " ++ toString off ++ " ns (>1 ms)."])
      else ([], [])

/-- Check 3 of `assess` (mean path delay): warning above 5 ms. -/
def mpdCheck (mv : Option Value) : List String :=
  match mv with
  | none => []
  | some v =>
    match pyIntOfValue v with
    | none => []
    | some mpd =>
      if 5000000 < mpd then
        ["Mean path delay " ++ toString mpd ++ " ns (>5 ms)."]
      else []

/-- Check 4 of `assess`: observed delay mechanism differs from the
profile's expected one (when the envelope defines one; the envelope's
strings are never empty, so Python truthiness is `isSome`). -/
def dmCheck (env : Envelope) (delay_mech : Value) (profile : String) : List String :=
  match env.delay_mech with
  | some m =>
    if m ≠ pyUpper (pyStr delay_mech) then
      ["Delay mechanism is " ++ pyStr delay_mech ++ ", expected " ++ m ++
        " for " ++ profile ++ "."]
    else []
  | none => []

/-- Check 5 of `assess`: profile requires two-step but one-step was
observed (`exp["two_step"] is True and two_step is False`). -/
def twoStepCheck (env : Envelope) (two_step : Bool) (profile : String) : List String :=
  if env.two_step = some true ∧ two_step = false then
    ["1-step observed; " ++ profile ++ " typically requires 2-step."]
  else []

/-- Check 6 of `assess`: log-sync exponent outside the envelope's
allowed set (empty set or failing conversion skips the check). -/
def lsCheck (env : Envelope) (log_sync : Option Value) (profile : String) : List String :=
  match log_sync with
  | none => []
  | some v =>
    if env.log_sync ≠ [] then
      match pyIntOfValue v with
      | some n =>
        if n ∉ env.log_sync then
          ["logSyncInterval=" ++ pyStr v ++ " atypical for " ++ profile ++ "."]
        else []
      | none => []
    else []

/-- Check 7 of `assess`: log-announce exponent outside the allowed set. -/
def laCheck (env : Envelope) (log_announce : Option Value) (profile : String) : List String :=
  match log_announce with
  | none => []
  | some v =>
    if env.log_announce ≠ [] then
      match pyIntOfValue v with
      | some n =>
        if n ∉ env.log_announce then
          ["logAnnounceInterval=" ++ pyStr v ++ " atypical for " ++ profile ++ "."]
        else []
      | none => []
    else []

/-- Check 8 of `assess`: `time_traceable is False` (identity with the
boolean `False`, so only an explicit parsed `false`). -/
def ttCheck (tt : Option Value) : List String :=
  if tt = some (.bool false) then ["timeTraceable=false."] else []

/-- Check 9 of `assess`: `freq_traceable is False`. -/
def ftCheck (ft : Option Value) : List String :=
  if ft = some (.bool false) then ["frequencyTraceable=false."] else []

/-- Check 10 of `assess`: clock class at or above 128. -/
def ccCheck (cc : Option Value) : List String :=
  match cc with
  | none => []
  | some v =>
    match pyIntOfValue v with
    | none => []
    | some n =>
      if 128 ≤ n then
        ["grandmasterClockClass=" ++ toString n ++ " (unspecified/holdover)."]
      else []

/-- The critical list built by `assess`, in append order: the
grandmaster check, then the master-offset critical branch. -/
def criticalList (data : Snapshot) (transport : String) : List String :=
  gmCheck (gmPresentOf data) ++ (offsetCheck (masterOffsetOf data)).1

/-- The warnings list built by `assess`, in append order. -/
def warningsList (data : Snapshot) (transport : String) : List String :=
  (offsetCheck (masterOffsetOf data)).2 ++
  mpdCheck (meanPathDelayOf data) ++
  dmCheck (expected_intervals (profileOf data transport)) (delayMechOf data)
    (profileOf data transport) ++
  twoStepCheck (expected_intervals (profileOf data transport)) (twoStepOf data)
    (profileOf data transport) ++
  lsCheck (expected_intervals (profileOf data transport)) (logSyncOf data)
    (profileOf data transport) ++
  laCheck (expected_intervals (profileOf data transport)) (logAnnounceOf data)
    (profileOf data transport) ++
  ttCheck (timeTraceableOf data) ++
  ftCheck (freqTraceableOf data) ++
  ccCheck (clockClassOf data)

/-- `status = 2 if critical else (1 if warnings else 0)`. -/
def statusCode (critical warnings : List String) : Nat :=
  if critical ≠ [] then 2 else if warnings ≠ [] then 1 else 0

/-- The record returned by `assess`. -/
structure AssessmentResult where
  transport : String
  domain : Value
  delay_mechanism : String
  two_step : Bool
  log_sync : Option Value
  log_announce : Option Value
  log_pdelay : Option Value
  profile_guess : String
  profile_identity_raw : Option Value
  gm_present : Value
  gm_identity : Option Value
  grandmasterClockClass : Option Value
  timeTraceable : Option Value
  frequencyTraceable : Option Value
  master_offset_ns : Option Value
  mean_path_delay_ns : Option Value
  warnings : List String
  critical : List String
  status_code : Nat
deriving DecidableEq

/-- `assess(data, transport)`: extract the snapshot fields with the
source's fallback precedence, classify the profile, run the checks in
order, and attach the status code. -/
def assess (data : Snapshot) (transport : String) : AssessmentResult :=
  { transport := transport
    domain := domainOf data
    delay_mechanism := pyStr (delayMechOf data)
    two_step := twoStepOf data
    log_sync := logSyncOf data
    log_announce := logAnnounceOf data
    log_pdelay := logPdelayOf data
    profile_guess := profileOf data transport
    profile_identity_raw := profIdentityOf data
    gm_present := gmPresentOf data
    gm_identity := gmIdentityOf data
    grandmasterClockClass := clockClassOf data
    timeTraceable := timeTraceableOf data
    frequencyTraceable := freqTraceableOf data
    master_offset_ns := masterOffsetOf data
    mean_path_delay_ns := meanPathDelayOf data
    warnings := warningsList data transport
    critical := criticalList data transport
    status_code := statusCode (criticalList data transport) (warningsList data transport) }

/-- `pmc_query` as a function of the underlying call's result
`(rc, out, err)`: an error pair exactly when the call failed and
produced no output, otherwise the output with no error. -/
def pmc_query (rc : Int) (out err : String) : Option String × Option String :=
  if rc ≠ 0 ∧ out = "" then (none, some err) else (some out, none)

/-- The filesystem/process state a probe session touches: the spawned
client's process group, the ephemeral config file, the control-channel
socket path, and the open log file. -/
structure World where
  procAlive : Bool
  cfgExists : Bool
  udsExists : Bool
  logOpen : Bool
deriving DecidableEq

/-- Outcome oracle for the OS calls made during teardown: whether each
call succeeds or raises (permission errors, dead process group, closed
file, missing file, ...). -/
structure OsOracle where
  killpgTermOk : Bool
  waitOk : Bool
  killpgKillOk : Bool
  closeOk : Bool
  unlinkOk : Bool
deriving DecidableEq

/-- `try: step except Exception: pass` — keep the new state on success,
keep the old state when the step raises. -/
def tryIgnore (w : World) (r : Except Unit World) : World :=
  match r with
  | .ok w' => w'
  | .error _ => w

/-- `os.killpg(pid, sig)`: terminates the process group or raises. -/
def osKillpg (ok : Bool) (w : World) : Except Unit World :=
  if ok then .ok { w with procAlive := false } else .error ()

/-- `proc.wait(timeout=5)`: returns or raises (e.g. TimeoutExpired). -/
def procWait (ok : Bool) (w : World) : Except Unit World :=
  if ok then .ok w else .error ()

/-- `logf.close()`: closes the log file or raises. -/
def logfClose (ok : Bool) (w : World) : Except Unit World :=
  if ok then .ok { w with logOpen := false } else .error ()

/-- `os.unlink(cfg_path)`: removes the config file or raises. -/
def osUnlink (ok : Bool) (w : World) : Except Unit World :=
  if ok then .ok { w with cfgExists := false } else .error ()

/-- `stop_ptp4l(proc, logf, cfg_path)`: SIGTERM the process group, wait
with a bounded timeout and escalate to SIGKILL on failure, close the
log, unlink the config — every step in its own `try/except: pass`, so
the whole teardown returns normally for every oracle.  Nothing in it
touches the control-channel path. -/
def stop_ptp4l (o : OsOracle) (w : World) : Except Unit World :=
  let w1 := tryIgnore w (osKillpg o.killpgTermOk w)
  let w2 :=
    match procWait o.waitOk w1 with
    | .ok w' => w'
    | .error _ => tryIgnore w1 (osKillpg o.killpgKillOk w1)
  let w3 := tryIgnore w2 (logfClose o.closeOk w2)
  let w4 := tryIgnore w3 (osUnlink o.unlinkOk w3)
  .ok w4

/-- The state after `start_ptp4l`: config file written, log opened,
client spawned; the client binds its control-channel socket. -/
def startSession (w : World) : World :=
  { w with procAlive := true, cfgExists := true, udsExists := true, logOpen := true }

/-- How one probe attempt's body ends: assessment produced, query
failure (early return), or an exception raised mid-attempt. -/
inductive ProbeBody where
  | success
  | queryFail
  | interrupted
deriving DecidableEq

/-- Run `stop_ptp4l` for its final state (it always returns one). -/
def stopWorld (o : OsOracle) (w : World) : World :=
  match stop_ptp4l o w with
  | .ok w' => w'
  | .error _ => w

/-- `try_probe`: start the session, run the body, and tear the session
down in a `finally` block, so `stop_ptp4l` runs on every exit path —
normal completion, the query-failure early return, and the exception
path (which re-raises after cleanup). -/
def try_probe (o : OsOracle) (w : World) (body : ProbeBody) :
    Except Unit Bool × World :=
  let wEnd := stopWorld o (startSession w)
  match body with
  | .success => (.ok true, wEnd)
  | .queryFail => (.ok false, wEnd)
  | .interrupted => (.error (), wEnd)

/-- The ranking key of `main`:
`(1 if gm_present else 0, -len(critical), -len(warnings))`. -/
def score (r : AssessmentResult) : Int × Int × Int :=
  ((if truthy r.gm_present then 1 else 0),
    (-(r.critical.length : Int), -(r.warnings.length : Int)))

/-- Lexicographic `<` on triples, as Python compares tuples. -/
def tupleLt (a b : Int × Int × Int) : Prop :=
  a.1 < b.1 ∨ (a.1 = b.1 ∧ (a.2.1 < b.2.1 ∨ (a.2.1 = b.2.1 ∧ a.2.2 < b.2.2)))

/-- `r` outranks `s` in `sorted(results, key=score, reverse=True)`:
its key is strictly greater. -/
def outranks (r s : AssessmentResult) : Prop := tupleLt (score s) (score r)

/-- An all-success OS oracle. -/
def allOk : OsOracle := ⟨true, true, true, true, true⟩

/-- Sample snapshot: a grandmaster is present. -/
def snapGm : Snapshot := [("TIME_STATUS_NP", [("gmPresent", .bool true)])]

/-- Sample snapshot: no grandmaster and a 20 ms master offset (two
critical findings). -/
def snapTwoCrit : Snapshot :=
  [("TIME_STATUS_NP", [("master_offset", .int 20000000)])]

/-- Sample snapshot: grandmaster present and a 6 ms mean path delay
(one warning, no critical). -/
def snapGmWarn : Snapshot :=
  [("TIME_STATUS_NP", [("gmPresent", .bool true), ("meanPathDelay", .int 6000000)])]

/-- Sample snapshot: 20 ms master offset and 6 ms mean path delay. -/
def snapOffMpd : Snapshot :=
  [("TIME_STATUS_NP",
    [("master_offset", .int 20000000), ("meanPathDelay", .int 6000000)])]

/-- Sample snapshot: a negative domain over link-layer peer-to-peer. -/
def snapNegDomain : Snapshot :=
  [("DOMAIN", [("domainNumber", .int (-1))]),
   ("DELAY_MECHANISM", [("delay_mechanism", .str "P2P")])]

/-- Response text whose one dataset receives two well-formed `key
value` lines with the same key. -/
def dupKeyText : String := "RESPONSE FOO\na 1\na 2"

theorem mem_dkeys_dset (d : Dataset) (k : String) (v : Value) (k' : String) :
    k' ∈ dkeys (dset d k v) ↔ k' ∈ dkeys d ∨ k' = k := by
  induction d with
  | nil => simp [dset, dkeys]
  | cons p rest ih =>
    obtain ⟨k0, v0⟩ := p
    by_cases h : k0 = k
    · subst h
      simp [dset, dkeys]
      tauto
    · simp only [dset, if_neg h, dkeys, List.map_cons, List.mem_cons]
      simp only [dkeys] at ih
      rw [ih]
      tauto

theorem nodup_dkeys_dset (d : Dataset) (k : String) (v : Value)
    (h : (dkeys d).Nodup) : (dkeys (dset d k v)).Nodup := by
  induction d with
  | nil => simp [dset, dkeys]
  | cons p rest ih =>
    obtain ⟨k0, v0⟩ := p
    simp only [dkeys, List.map_cons, List.nodup_cons] at h
    by_cases hk : k0 = k
    · subst hk
      simp [dset, dkeys, List.nodup_cons]
      simpa [dkeys] using h
    · simp only [dset, if_neg hk, dkeys, List.map_cons, List.nodup_cons]
      refine ⟨?_, ih h.2⟩
      intro hmem
      rcases (mem_dkeys_dset rest k v k0).1 hmem with h1 | h1
      · exact h.1 h1
      · exact hk h1

theorem mem_snapKeys_setdefault (s : Snapshot) (h : String) (D : String) :
    D ∈ snapKeys (setdefaultDS s h) ↔ D ∈ snapKeys s ∨ D = h := by
  induction s with
  | nil => simp [setdefaultDS, snapKeys]
  | cons p rest ih =>
    obtain ⟨n, fs⟩ := p
    by_cases hn : n = h
    · subst hn
      simp [setdefaultDS, snapKeys]
      tauto
    · simp only [setdefaultDS, if_neg hn, snapKeys, List.map_cons, List.mem_cons]
      simp only [snapKeys] at ih
      rw [ih]
      tauto

theorem nodup_snapKeys_setdefault (s : Snapshot) (h : String)
    (hs : (snapKeys s).Nodup) : (snapKeys (setdefaultDS s h)).Nodup := by
  induction s with
  | nil => simp [setdefaultDS, snapKeys]
  | cons p rest ih =>
    obtain ⟨n, fs⟩ := p
    simp only [snapKeys, List.map_cons, List.nodup_cons] at hs
    by_cases hn : n = h
    · subst hn
      simp [setdefaultDS, snapKeys, List.nodup_cons]
      simpa [snapKeys] using hs
    · simp only [setdefaultDS, if_neg hn, snapKeys, List.map_cons, List.nodup_cons]
      refine ⟨?_, ih hs.2⟩
      intro hmem
      rcases (mem_snapKeys_setdefault rest h n).1 hmem with h1 | h1
      · exact hs.1 h1
      · exact hn h1

theorem mem_setdefault_self (s : Snapshot) (h : String) :
    h ∈ snapKeys (setdefaultDS s h) :=
  (mem_snapKeys_setdefault s h h).2 (Or.inr rfl)

theorem snapKeys_snapSet (s : Snapshot) (c k : String) (v : Value) :
    snapKeys (snapSet s c k v) = snapKeys s := by
  induction s with
  | nil => simp [snapSet]
  | cons p rest ih =>
    obtain ⟨n, fs⟩ := p
    by_cases hn : n = c
    · simp [snapSet, hn, snapKeys]
    · simp only [snapSet, if_neg hn, snapKeys, List.map_cons]
      simp only [snapKeys] at ih
      rw [ih]

theorem snapGetD_setdefault (s : Snapshot) (h : String) (D : String) :
    snapGetD (setdefaultDS s h) D = snapGetD s D := by
  induction s with
  | nil =>
    simp only [setdefaultDS, snapGetD, snapGet]
    split <;> rfl
  | cons p rest ih =>
    obtain ⟨n, fs⟩ := p
    by_cases hn : n = h
    · simp [setdefaultDS, hn]
    · by_cases hD : n = D
      · subst hD
        rw [setdefaultDS, if_neg hn]
        simp [snapGetD, snapGet]
      · simp only [setdefaultDS, if_neg hn, snapGetD, snapGet, if_neg hD]
        exact ih

theorem snapSet_not_mem (s : Snapshot) (c k : String) (v : Value)
    (hc : c ∉ snapKeys s) : snapSet s c k v = s := by
  induction s with
  | nil => rfl
  | cons p rest ih =>
    obtain ⟨n, fs⟩ := p
    simp only [snapKeys, List.map_cons, List.mem_cons] at hc
    push_neg at hc
    simp only [snapSet, if_neg (Ne.symm hc.1)]
    rw [ih hc.2]

theorem snapGetD_snapSet_ne (s : Snapshot) (c k : String) (v : Value)
    (D : String) (h : c ≠ D) :
    snapGetD (snapSet s c k v) D = snapGetD s D := by
  induction s with
  | nil => rfl
  | cons p rest ih =>
    obtain ⟨n, fs⟩ := p
    by_cases hn : n = c
    · subst hn
      simp [snapSet, snapGetD, snapGet, if_neg h]
    · by_cases hD : n = D
      · subst hD
        rw [snapSet, if_neg hn]
        simp [snapGetD, snapGet]
      · simp only [snapSet, if_neg hn, snapGetD, snapGet, if_neg hD]
        exact ih

theorem snapGetD_snapSet_self (s : Snapshot) (c k : String) (v : Value)
    (hc : c ∈ snapKeys s) :
    snapGetD (snapSet s c k v) c = dset (snapGetD s c) k v := by
  induction s with
  | nil => simp [snapKeys] at hc
  | cons p rest ih =>
    obtain ⟨n, fs⟩ := p
    by_cases hn : n = c
    · subst hn
      simp [snapSet, snapGetD, snapGet]
    · simp only [snapKeys, List.map_cons, List.mem_cons] at hc
      rcases hc with hc | hc
      · exact absurd hc.symm hn
      · simp only [snapSet, if_neg hn, snapGetD, snapGet, if_neg hn]
        exact ih hc

theorem headerName_empty : headerName "" = none := by decide

theorem kvMatch_empty : kvMatch "" = none := by decide

theorem processLine_empty (st : Snapshot × Option String) (l : String)
    (he : pyStrip l = "") : processLine st l = st := by
  simp [processLine, he]

theorem processLine_header (st : Snapshot × Option String) (l : String)
    (h : String) (hh : headerName (pyStrip l) = some h) :
    processLine st l = (setdefaultDS st.1 h, some h) := by
  have he : ¬pyStrip l = "" := by
    intro e
    rw [e, headerName_empty] at hh
    exact Option.noConfusion hh
  simp [processLine, if_neg he, hh]

theorem processLine_none_cur (st : Snapshot × Option String) (l : String)
    (he : ¬pyStrip l = "") (hh : headerName (pyStrip l) = none)
    (hc : st.2 = none) : processLine st l = st := by
  simp [processLine, if_neg he, hh, hc]

theorem processLine_nokv (st : Snapshot × Option String) (l : String)
    (c : String) (he : ¬pyStrip l = "") (hh : headerName (pyStrip l) = none)
    (hc : st.2 = some c) (hk : kvMatch (pyStrip l) = none) :
    processLine st l = st := by
  simp [processLine, if_neg he, hh, hc, hk]

theorem processLine_kv (st : Snapshot × Option String) (l : String)
    (c k v : String) (hh : headerName (pyStrip l) = none)
    (hc : st.2 = some c) (hk : kvMatch (pyStrip l) = some (k, v)) :
    processLine st l = (snapSet st.1 c k (coerceValue v), st.2) := by
  have he : ¬pyStrip l = "" := by
    intro e
    rw [e, kvMatch_empty] at hk
    exact Option.noConfusion hk
  simp [processLine, if_neg he, hh, hc, hk]

theorem parse_keys_mem (L : List String) :
    ∀ (st : Snapshot × Option String) (D : String),
    D ∈ snapKeys (L.foldl processLine st).1 ↔
      D ∈ snapKeys st.1 ∨ D ∈ headerNamesOfLines L := by
  induction L with
  | nil => intro st D; simp [headerNamesOfLines]
  | cons l L ih =>
    intro st D
    rw [List.foldl_cons]
    by_cases he : pyStrip l = ""
    · have hh : headerName (pyStrip l) = none := by rw [he]; exact headerName_empty
      rw [processLine_empty st l he, ih]
      simp [headerNamesOfLines, List.filterMap_cons, hh]
    · cases hh : headerName (pyStrip l) with
      | some h =>
        rw [processLine_header st l h hh, ih]
        simp only [headerNamesOfLines, List.filterMap_cons, hh]
        rw [mem_snapKeys_setdefault]
        simp only [List.mem_cons, headerNamesOfLines]
        tauto
      | none =>
        have hfst : snapKeys (processLine st l).1 = snapKeys st.1 := by
          cases hc : st.2 with
          | none => rw [processLine_none_cur st l he hh hc]
          | some c =>
            cases hk : kvMatch (pyStrip l) with
            | none => rw [processLine_nokv st l c he hh hc hk]
            | some kv =>
              obtain ⟨k, v⟩ := kv
              rw [processLine_kv st l c k v hh hc hk]
              exact snapKeys_snapSet st.1 c k (coerceValue v)
        rw [ih, hfst]
        simp [headerNamesOfLines, List.filterMap_cons, hh]

theorem processLine_cur (st : Snapshot × Option String) (l : String)
    (hcur : ∀ c, st.2 = some c → c ∈ snapKeys st.1) :
    ∀ c, (processLine st l).2 = some c → c ∈ snapKeys (processLine st l).1 := by
  by_cases he : pyStrip l = ""
  · rw [processLine_empty st l he]; exact hcur
  · cases hh : headerName (pyStrip l) with
    | some h =>
      rw [processLine_header st l h hh]
      intro c hc
      have : h = c := Option.some.inj hc
      subst this
      exact mem_setdefault_self st.1 h
    | none =>
      cases hc : st.2 with
      | none => rw [processLine_none_cur st l he hh hc]; exact hcur
      | some c0 =>
        cases hk : kvMatch (pyStrip l) with
        | none => rw [processLine_nokv st l c0 he hh hc hk]; exact hcur
        | some kv =>
          obtain ⟨k, v⟩ := kv
          rw [processLine_kv st l c0 k v hh hc hk]
          intro c hcc
          rw [snapKeys_snapSet]
          exact hcur c hcc

theorem parse_cur (L : List String) :
    ∀ (st : Snapshot × Option String),
    (∀ c, st.2 = some c → c ∈ snapKeys st.1) →
    ∀ c, (L.foldl processLine st).2 = some c →
      c ∈ snapKeys (L.foldl processLine st).1 := by
  induction L with
  | nil => intro st h; exact h
  | cons l L ih =>
    intro st h
    rw [List.foldl_cons]
    exact ih (processLine st l) (processLine_cur st l h)

theorem parse_fields_mem (L : List String) :
    ∀ (st : Snapshot × Option String) (D k : String),
    (∀ c, st.2 = some c → c ∈ snapKeys st.1) →
    (k ∈ dsFieldKeys (L.foldl processLine st).1 D ↔
      k ∈ dsFieldKeys st.1 D ∨ k ∈ kvKeysUnder st.2 L D) := by
  induction L with
  | nil =>
    intro st D k _
    cases st.2 <;> simp [kvKeysUnder]
  | cons l L ih =>
    intro st D k hcur
    rw [List.foldl_cons]
    by_cases he : pyStrip l = ""
    · rw [processLine_empty st l he, ih st D k hcur]
      have : kvKeysUnder st.2 (l :: L) D = kvKeysUnder st.2 L D := by
        cases st.2 <;> simp [kvKeysUnder, he]
      rw [this]
    · cases hh : headerName (pyStrip l) with
      | some h =>
        rw [processLine_header st l h hh]
        rw [ih (setdefaultDS st.1 h, some h) D k ?hcur2]
        case hcur2 =>
          intro c hc
          have : h = c := Option.some.inj hc
          subst this
          exact mem_setdefault_self st.1 h
        have h1 : dsFieldKeys (setdefaultDS st.1 h) D = dsFieldKeys st.1 D := by
          simp only [dsFieldKeys]
          rw [snapGetD_setdefault]
        have h2 : kvKeysUnder st.2 (l :: L) D = kvKeysUnder (some h) L D := by
          cases st.2 <;> simp [kvKeysUnder, he, hh]
        rw [h1, h2]
      | none =>
        cases hc : st.2 with
        | none =>
          rw [processLine_none_cur st l he hh hc, ih st D k hcur, hc]
          have : kvKeysUnder none (l :: L) D = kvKeysUnder none L D := by
            simp [kvKeysUnder, he, hh]
          rw [this]
        | some c =>
          cases hk : kvMatch (pyStrip l) with
          | none =>
            rw [processLine_nokv st l c he hh hc hk, ih st D k hcur, hc]
            have : kvKeysUnder (some c) (l :: L) D = kvKeysUnder (some c) L D := by
              simp [kvKeysUnder, he, hh, hk]
            rw [this]
          | some kv =>
            obtain ⟨k0, v0⟩ := kv
            rw [processLine_kv st l c k0 v0 hh hc hk]
            rw [ih (snapSet st.1 c k0 (coerceValue v0), st.2) D k ?hcur3]
            case hcur3 =>
              intro c' hc'
              rw [snapKeys_snapSet]
              exact hcur c' hc'
            simp only [hc]
            by_cases hcD : c = D
            · subst hcD
              have hexp : kvKeysUnder (some c) (l :: L) c =
                  k0 :: kvKeysUnder (some c) L c := by
                simp [kvKeysUnder, he, hh, hk]
              rw [hexp]
              simp only [dsFieldKeys]
              rw [snapGetD_snapSet_self st.1 c k0 (coerceValue v0) (hcur c hc)]
              simp only [List.mem_cons]
              rw [mem_dkeys_dset]
              tauto
            · have hexp : kvKeysUnder (some c) (l :: L) D =
                  kvKeysUnder (some c) L D := by
                simp [kvKeysUnder, he, hh, hk, hcD]
              rw [hexp]
              simp only [dsFieldKeys]
              rw [snapGetD_snapSet_ne st.1 c k0 (coerceValue v0) D hcD]

theorem processLine_keys_nodup (st : Snapshot × Option String) (l : String)
    (h : (snapKeys st.1).Nodup) : (snapKeys (processLine st l).1).Nodup := by
  by_cases he : pyStrip l = ""
  · rw [processLine_empty st l he]; exact h
  · cases hh : headerName (pyStrip l) with
    | some hd =>
      rw [processLine_header st l hd hh]
      exact nodup_snapKeys_setdefault st.1 hd h
    | none =>
      cases hc : st.2 with
      | none => rw [processLine_none_cur st l he hh hc]; exact h
      | some c =>
        cases hk : kvMatch (pyStrip l) with
        | none => rw [processLine_nokv st l c he hh hc hk]; exact h
        | some kv =>
          obtain ⟨k, v⟩ := kv
          rw [processLine_kv st l c k v hh hc hk]
          simpa only [snapKeys_snapSet] using h

theorem parse_keys_nodup (L : List String) :
    ∀ (st : Snapshot × Option String), (snapKeys st.1).Nodup →
    (snapKeys (L.foldl processLine st).1).Nodup := by
  induction L with
  | nil => intro st h; exact h
  | cons l L ih =>
    intro st h
    rw [List.foldl_cons]
    exact ih (processLine st l) (processLine_keys_nodup st l h)

theorem processLine_fields_nodup (st : Snapshot × Option String) (l : String)
    (hcur : ∀ c, st.2 = some c → c ∈ snapKeys st.1)
    (h : ∀ D, (dsFieldKeys st.1 D).Nodup) :
    ∀ D, (dsFieldKeys (processLine st l).1 D).Nodup := by
  intro D
  by_cases he : pyStrip l = ""
  · rw [processLine_empty st l he]; exact h D
  · cases hh : headerName (pyStrip l) with
    | some hd =>
      rw [processLine_header st l hd hh]
      simp only [dsFieldKeys]
      rw [snapGetD_setdefault]
      exact h D
    | none =>
      cases hc : st.2 with
      | none => rw [processLine_none_cur st l he hh hc]; exact h D
      | some c =>
        cases hk : kvMatch (pyStrip l) with
        | none => rw [processLine_nokv st l c he hh hc hk]; exact h D
        | some kv =>
          obtain ⟨k, v⟩ := kv
          rw [processLine_kv st l c k v hh hc hk]
          by_cases hcD : c = D
          · subst hcD
            simp only [dsFieldKeys]
            rw [snapGetD_snapSet_self st.1 c k (coerceValue v) (hcur c hc)]
            exact nodup_dkeys_dset _ k (coerceValue v) (h c)
          · simp only [dsFieldKeys]
            rw [snapGetD_snapSet_ne st.1 c k (coerceValue v) D hcD]
            exact h D

theorem parse_fields_nodup (L : List String) :
    ∀ (st : Snapshot × Option String),
    (∀ c, st.2 = some c → c ∈ snapKeys st.1) →
    (∀ D, (dsFieldKeys st.1 D).Nodup) →
    ∀ D, (dsFieldKeys (L.foldl processLine st).1 D).Nodup := by
  induction L with
  | nil => intro st _ h; exact h
  | cons l L ih =>
    intro st hcur h
    rw [List.foldl_cons]
    exact ih (processLine st l) (processLine_cur st l hcur)
      (processLine_fields_nodup st l hcur h)

/-- Claim C1: for every snapshot and transport, the assessment's
status_code is 2 iff its critical list is non-empty, else 1 iff its
warning list is non-empty, else 0. -/
theorem c1_status_code_iff (data : Snapshot) (transport : String) :
    ((assess data transport).status_code = 2 ↔
      (assess data transport).critical ≠ []) ∧
    ((assess data transport).status_code = 1 ↔
      ((assess data transport).critical = [] ∧
        (assess data transport).warnings ≠ [])) ∧
    ((assess data transport).status_code = 0 ↔
      ((assess data transport).critical = [] ∧
        (assess data transport).warnings = [])) := by
  have hc : (assess data transport).critical = criticalList data transport := rfl
  have hw : (assess data transport).warnings = warningsList data transport := rfl
  have hs : (assess data transport).status_code =
      statusCode (criticalList data transport) (warningsList data transport) := rfl
  rw [hc, hw, hs]
  generalize criticalList data transport = C
  generalize warningsList data transport = W
  unfold statusCode
  by_cases h1 : C = [] <;> by_cases h2 : W = [] <;> simp [h1, h2]

/-- Witness for C1 at a concrete healthy snapshot. -/
theorem c1_witness : (assess snapGm "L2").status_code = 0 :=
  (c1_status_code_iff snapGm "L2").2.2.mpr (by constructor <;> decide)

/-- Claim C7: whenever the grandmaster-present flag is the parsed
boolean `false` or absent, the critical list contains the
no-grandmaster message and the status code is 2, for every snapshot
and transport. -/
theorem c7_no_gm_critical (data : Snapshot) (transport : String)
    (h : dget (tsOf data) "gmPresent" = some (Value.bool false) ∨
      dget (tsOf data) "gmPresent" = none) :
    "No grandmaster detected on this transport/config." ∈
      (assess data transport).critical ∧
    (assess data transport).status_code = 2 := by
  have hgm : gmPresentOf data = Value.bool false := by
    unfold gmPresentOf
    rcases h with h | h <;> rw [h] <;> rfl
  have hgc : gmCheck (gmPresentOf data) =
      ["No grandmaster detected on this transport/config."] := by
    rw [hgm]; rfl
  constructor
  · show "No grandmaster detected on this transport/config." ∈
      criticalList data transport
    unfold criticalList
    rw [hgc]
    exact List.mem_append_left _ (List.mem_singleton.mpr rfl)
  · have hne : criticalList data transport ≠ [] := by
      unfold criticalList
      rw [hgc]
      simp
    show statusCode (criticalList data transport) (warningsList data transport) = 2
    unfold statusCode
    rw [if_pos hne]

/-- Witness for C7: the empty snapshot has no grandmaster entry. -/
theorem c7_witness :
    "No grandmaster detected on this transport/config." ∈
      (assess ([] : Snapshot) "L2").critical ∧
    (assess ([] : Snapshot) "L2").status_code = 2 :=
  c7_no_gm_critical [] "L2" (Or.inr (by decide))

/-- Claim C9: the management query returns an error result exactly when
the call reported non-zero and produced no output; any non-empty output
is returned with an empty error even on non-zero exit status. -/
theorem c9_pmc_query (rc : Int) (out err : String) :
    (pmc_query rc out err = (none, some err) ↔ (rc ≠ 0 ∧ out = "")) ∧
    (out ≠ "" → pmc_query rc out err = (some out, none)) := by
  constructor
  · unfold pmc_query
    by_cases h : rc ≠ 0 ∧ out = ""
    · rw [if_pos h]
      simp [h]
    · rw [if_neg h]
      exact iff_of_false (by simp) h
  · intro ho
    unfold pmc_query
    rw [if_neg (by tauto)]

/-- Witness for C9: partial output on a failing exit status. -/
theorem c9_witness :
    pmc_query 1 "partial output" "boom" = (some "partial output", none) :=
  (c9_pmc_query 1 "partial output" "boom").2 (by decide)

/-- Claim C10: a domain value whose string form is not all decimal
digits is classified with domain 0 while the result's domain field
keeps the raw value. -/
theorem c10_nondigit_domain (data : Snapshot) (transport : String)
    (h : pyIsDigit (pyStr (domainOf data)) = false) :
    (assess data transport).profile_guess =
      pick_profile transport 0 (pyStr (delayMechOf data)) (logSyncOf data)
        (logAnnounceOf data) (twoStepOf data) ∧
    (assess data transport).domain = domainOf data := by
  constructor
  · show profileOf data transport = _
    unfold profileOf domainForProfile
    rw [if_neg (by simp [h])]
  · rfl

/-- Witness for C10: a negative domain on link-layer peer-to-peer is
classified as the power-utility profile and reported unchanged. -/
theorem c10_witness :
    (assess snapNegDomain "L2").profile_guess =
      "IEC/IEEE 61850-9-3 (Power Utility Profile)" ∧
    (assess snapNegDomain "L2").domain = Value.int (-1) := by
  have h := c10_nondigit_domain snapNegDomain "L2" (by decide)
  exact ⟨h.1.trans (by decide), h.2.trans (by decide)⟩

/-- Counterexample to C6 as stated: link-layer peer-to-peer with
domain 5 matches none of the claim's four rules, yet the classifier
returns the generic link-layer guess, not "Unknown/Mixed". -/
theorem c6_counterexample :
    pick_profile "L2" 5 "P2P" none none false =
      "L2 P2P (likely 9-3 or G.8275.1)" ∧
    pick_profile "L2" 5 "P2P" none none false ≠ "Unknown/Mixed" := by
  constructor <;> decide

/-- Claim C6 (amended): the decision table including the generic
fallback labels of the two transport branches; only combinations
matching neither branch map to "Unknown/Mixed". -/
theorem c6_decision_table (t : String) (d : Int) (dm : String)
    (ls la : Option Value) (ts : Bool) :
    (t = "L2" → pyUpper dm = "P2P" →
      pick_profile t d dm ls la ts =
        (if d = 0 ∨ d = 1 then "IEC/IEEE 61850-9-3 (Power Utility Profile)"
         else if d = 24 then "ITU-T G.8275.1 (Telecom, full timing support)"
         else "L2 P2P (likely 9-3 or G.8275.1)")) ∧
    ((t = "UDPv4" ∨ t = "UDPv6") →
      (pyUpper dm = "E2E" ∨ pyUpper dm = "AUTO" ∨ pyUpper dm = "NONE") →
      pick_profile t d dm ls la ts =
        (if d = 24 then "ITU-T G.8275.2 (Telecom, partial timing support)"
         else if d = 0 then "IEEE 1588 Default Profile"
         else "IP E2E (likely Default/G.8275.2)")) ∧
    (¬(t = "L2" ∧ pyUpper dm = "P2P") →
      ¬((t = "UDPv4" ∨ t = "UDPv6") ∧
        (pyUpper dm = "E2E" ∨ pyUpper dm = "AUTO" ∨ pyUpper dm = "NONE")) →
      pick_profile t d dm ls la ts = "Unknown/Mixed") := by
  refine ⟨?_, ?_, ?_⟩
  · intro h1 h2
    simp only [pick_profile]
    rw [if_pos ⟨h1, h2⟩]
  · intro h1 h2
    have hne : ¬(t = "L2" ∧ pyUpper dm = "P2P") := by
      rintro ⟨hL, _⟩
      rcases h1 with h | h <;> rw [h] at hL <;> exact absurd hL (by decide)
    simp only [pick_profile]
    rw [if_neg hne, if_pos ⟨h1, h2⟩]
  · intro h1 h2
    simp only [pick_profile]
    rw [if_neg h1, if_neg h2]

/-- Witness for C6 (amended): one concrete row of each branch. -/
theorem c6_witness :
    pick_profile "L2" 1 "p2p" none none false =
      "IEC/IEEE 61850-9-3 (Power Utility Profile)" ∧
    pick_profile "UDPv4" 24 "E2E" none none false =
      "ITU-T G.8275.2 (Telecom, partial timing support)" ∧
    pick_profile "UDPv6" 7 "weird" none none false = "Unknown/Mixed" := by
  have h1 := (c6_decision_table "L2" 1 "p2p" none none false).1 rfl (by decide)
  have h2 := (c6_decision_table "UDPv4" 24 "E2E" none none false).2.1
    (Or.inl rfl) (by decide)
  have h3 := (c6_decision_table "UDPv6" 7 "weird" none none false).2.2
    (by decide) (by decide)
  exact ⟨h1.trans (by decide), h2.trans (by decide), h3⟩

/-- Claim C5: a result with a truthy grandmaster flag outranks any
result without one regardless of counts; with equal grandmaster
presence, fewer criticals outranks, then fewer warnings. -/
theorem c5_ranking (r s : AssessmentResult) :
    (truthy r.gm_present = true → truthy s.gm_present = false → outranks r s) ∧
    (truthy r.gm_present = truthy s.gm_present →
      r.critical.length < s.critical.length → outranks r s) ∧
    (truthy r.gm_present = truthy s.gm_present →
      r.critical.length = s.critical.length →
      r.warnings.length < s.warnings.length → outranks r s) := by
  refine ⟨?_, ?_, ?_⟩
  · intro h1 h2
    unfold outranks tupleLt score
    rw [h1, h2]
    simp
  · intro h1 h2
    unfold outranks tupleLt score
    rw [h1]
    refine Or.inr ⟨rfl, Or.inl ?_⟩
    simp
    omega
  · intro h1 h2 h3
    unfold outranks tupleLt score
    rw [h1]
    refine Or.inr ⟨rfl, Or.inr ⟨?_, ?_⟩⟩
    · simp
      omega
    · simp
      omega

/-- Witness for C5: three concrete assessed pairs, one per clause. -/
theorem c5_witness :
    outranks (assess snapGm "L2") (assess ([] : Snapshot) "L2") ∧
    outranks (assess ([] : Snapshot) "L2") (assess snapTwoCrit "L2") ∧
    outranks (assess snapGm "L2") (assess snapGmWarn "L2") := by
  refine ⟨?_, ?_, ?_⟩
  · exact (c5_ranking (assess snapGm "L2") (assess [] "L2")).1
      (by decide) (by decide)
  · exact (c5_ranking (assess [] "L2") (assess snapTwoCrit "L2")).2.1
      (by decide) (by decide)
  · exact (c5_ranking (assess snapGm "L2") (assess snapGmWarn "L2")).2.2
      (by decide) (by decide) (by decide)

/-- Counterexample to C2 as stated: after a successful probe attempt in
which every cleanup call succeeds, the control-channel path still
exists — teardown never removes it. -/
theorem c2_counterexample :
    ((try_probe allOk ⟨false, false, false, false⟩ ProbeBody.success).2).udsExists
      = true ∧
    ((try_probe allOk ⟨false, false, false, false⟩ ProbeBody.success).2).cfgExists
      = false := by
  constructor <;> decide

/-- Claim C2 (amended): on every exit path of a probe attempt, teardown
runs and never raises; the ephemeral config file is gone whenever its
removal succeeds and the log is closed whenever closing succeeds, but
the control-channel path is not removed by teardown. -/
theorem c2_teardown (o : OsOracle) (w : World) (b : ProbeBody) :
    (∃ w2, stop_ptp4l o (startSession w) = Except.ok w2) ∧
    (o.unlinkOk = true → ((try_probe o w b).2).cfgExists = false) ∧
    (o.closeOk = true → ((try_probe o w b).2).logOpen = false) ∧
    ((try_probe o w b).2).udsExists = true := by
  refine ⟨⟨_, rfl⟩, ?_, ?_, ?_⟩ <;>
    obtain ⟨k1, k2, k3, k4, k5⟩ := o <;>
    obtain ⟨p, cf, u, lo⟩ := w <;>
    revert k1 k2 k3 k4 k5 p cf u lo <;>
    cases b <;> decide

/-- Witness for C2 (amended): all-success teardown on a live session. -/
theorem c2_witness :
    ((try_probe allOk ⟨true, true, true, true⟩ ProbeBody.interrupted).2).cfgExists
      = false ∧
    ((try_probe allOk ⟨true, true, true, true⟩ ProbeBody.interrupted).2).logOpen
      = false :=
  ⟨(c2_teardown allOk ⟨true, true, true, true⟩ ProbeBody.interrupted).2.1 rfl,
   (c2_teardown allOk ⟨true, true, true, true⟩ ProbeBody.interrupted).2.2.1 rfl⟩

/-- Claim C8: with integer master offset and mean path delay, the
offset check emits one critical message iff the absolute offset
exceeds 10,000,000 ns, else one warning iff it exceeds 1,000,000 ns;
the path-delay check emits one warning iff the delay exceeds
5,000,000 ns; each check emits at most one message, and the
assessment's lists are exactly the concatenations of the checks. -/
theorem c8_offset_mpd (data : Snapshot) (transport : String) (off mpd : Int)
    (h1 : masterOffsetOf data = some (Value.int off))
    (h2 : meanPathDelayOf data = some (Value.int mpd)) :
    (offsetCheck (masterOffsetOf data)).1 =
      (if 10000000 < off.natAbs then
        ["Master offset " ++ toString off ++ " ns (>10 ms)."] else []) ∧
    (offsetCheck (masterOffsetOf data)).2 =
      (if 10000000 < off.natAbs then []
       else if 1000000 < off.natAbs then
        ["Master offset " ++ toString off ++ " ns (>1 ms)."] else []) ∧
    mpdCheck (meanPathDelayOf data) =
      (if 5000000 < mpd then
        ["Mean path delay " ++ toString mpd ++ " ns (>5 ms)."] else []) ∧
    (assess data transport).critical =
      gmCheck (gmPresentOf data) ++ (offsetCheck (masterOffsetOf data)).1 ∧
    (assess data transport).warnings =
      (offsetCheck (masterOffsetOf data)).2 ++
      mpdCheck (meanPathDelayOf data) ++
      dmCheck (expected_intervals (profileOf data transport)) (delayMechOf data)
        (profileOf data transport) ++
      twoStepCheck (expected_intervals (profileOf data transport))
        (twoStepOf data) (profileOf data transport) ++
      lsCheck (expected_intervals (profileOf data transport)) (logSyncOf data)
        (profileOf data transport) ++
      laCheck (expected_intervals (profileOf data transport))
        (logAnnounceOf data) (profileOf data transport) ++
      ttCheck (timeTraceableOf data) ++ ftCheck (freqTraceableOf data) ++
      ccCheck (clockClassOf data) ∧
    (offsetCheck (masterOffsetOf data)).1.length ≤ 1 ∧
    (offsetCheck (masterOffsetOf data)).2.length ≤ 1 ∧
    (mpdCheck (meanPathDelayOf data)).length ≤ 1 := by
  refine ⟨?_, ?_, ?_, rfl, rfl, ?_, ?_, ?_⟩
  · rw [h1]
    simp only [offsetCheck, pyIntOfValue]
    split_ifs <;> rfl
  · rw [h1]
    simp only [offsetCheck, pyIntOfValue]
    split_ifs <;> rfl
  · rw [h2]
    rfl
  · rw [h1]
    simp only [offsetCheck, pyIntOfValue]
    split_ifs <;> simp
  · rw [h1]
    simp only [offsetCheck, pyIntOfValue]
    split_ifs <;> simp
  · rw [h2]
    simp only [mpdCheck, pyIntOfValue]
    split_ifs <;> simp

/-- Witness for C8: 20 ms offset and 6 ms mean path delay. -/
theorem c8_witness :
    (offsetCheck (masterOffsetOf snapOffMpd)).1 =
      ["Master offset 20000000 ns (>10 ms)."] ∧
    mpdCheck (meanPathDelayOf snapOffMpd) =
      ["Mean path delay 6000000 ns (>5 ms)."] := by
  have h := c8_offset_mpd snapOffMpd "L2" 20000000 6000000 (by decide) (by decide)
  exact ⟨h.1.trans (by decide), h.2.2.1.trans (by decide)⟩

/-- Claim C3: the parser's value coercion stores case-insensitive
boolean literals as booleans, numerically convertible values (decimal,
or lowercase-`0x`-prefixed hex as accepted by Python `int`) as
integers — `0x2A` yields 42 — and everything else as the unchanged
string; and every well-formed `key value` line processed under a
dataset header leaves its key stored in that dataset. -/
theorem c3_field_coercion :
    (∀ v : String,
      (pyLower v = "true" → coerceValue v = Value.bool true) ∧
      (pyLower v = "false" → coerceValue v = Value.bool false) ∧
      (∀ n : Int, pyLower v ≠ "true" → pyLower v ≠ "false" →
        pyNumeric v = some n → coerceValue v = Value.int n) ∧
      (pyLower v ≠ "true" → pyLower v ≠ "false" → pyNumeric v = none →
        coerceValue v = Value.str v)) ∧
    coerceValue "0x2A" = Value.int 42 ∧
    (∀ (st : Snapshot × Option String) (c l : String) (L : List String)
      (k v : String),
      st.2 = some c → c ∈ snapKeys st.1 →
      headerName (pyStrip l) = none → kvMatch (pyStrip l) = some (k, v) →
      k ∈ dsFieldKeys ((l :: L).foldl processLine st).1 c) := by
  refine ⟨?_, by decide, ?_⟩
  · intro v
    refine ⟨?_, ?_, ?_, ?_⟩
    · intro h
      simp [coerceValue, h]
    · intro h
      have hne : ¬pyLower v = "true" := by
        rw [h]; decide
      simp [coerceValue, hne, h]
    · intro n hl1 hl2 hn
      simp [coerceValue, hl1, hl2, hn]
    · intro hl1 hl2 hn
      simp [coerceValue, hl1, hl2, hn]
  · intro st c l L k v hc hmem hh hk
    rw [List.foldl_cons, processLine_kv st l c k v hh hc hk]
    rw [parse_fields_mem L (snapSet st.1 c k (coerceValue v), st.2) c k ?hcur]
    case hcur =>
      intro c' hc'
      simp only at hc'
      rw [hc] at hc'
      have : c = c' := Option.some.inj hc'
      subst this
      simp only
      rw [snapKeys_snapSet]
      exact hmem
    left
    simp only [dsFieldKeys]
    rw [snapGetD_snapSet_self st.1 c k (coerceValue v) hmem]
    rw [mem_dkeys_dset]
    exact Or.inr rfl

/-- Witness for C3: a hex value, an upper-case boolean literal, and a
non-numeric string. -/
theorem c3_witness :
    coerceValue "0x2A" = Value.int 42 ∧
    coerceValue "TRUE" = Value.bool true ∧
    coerceValue "has_two words" = Value.str "has_two words" := by
  have h := c3_field_coercion
  exact ⟨(h.1 "0x2A").2.2.1 42 (by decide) (by decide) (by decide),
    (h.1 "TRUE").1 (by decide),
    (h.1 "has_two words").2.2.2 (by decide) (by decide) (by decide)⟩

/-- Counterexample to C4 as stated: two well-formed `key value` lines
with the same key under one header store a single field, so the field
count (1) differs from the well-formed-line count (2). -/
theorem c4_counterexample :
    parse_pmc_output dupKeyText = [("FOO", [("a", Value.int 2)])] ∧
    (dsFieldKeys (parse_pmc_output dupKeyText) "FOO").length = 1 ∧
    (kvKeysUnder none (pySplitLines dupKeyText) "FOO").length = 2 := by
  refine ⟨by decide, by decide, by decide⟩

/-- Claim C4 (amended): the parser yields exactly one dataset key per
distinct recognized header name; the fields stored under a dataset are
exactly the distinct keys of the well-formed `key value` lines
processed while it is current (a repeated key is stored once, the
later value overwriting the earlier); a line matching neither pattern
leaves the state unchanged, and the parser is a total function. -/
theorem c4_parse_structure (text : String) :
    (snapKeys (parse_pmc_output text)).Nodup ∧
    (∀ D, D ∈ snapKeys (parse_pmc_output text) ↔
      D ∈ headerNamesOfLines (pySplitLines text)) ∧
    (snapKeys (parse_pmc_output text)).length =
      (headerNamesOfLines (pySplitLines text)).dedup.length ∧
    (∀ D, (dsFieldKeys (parse_pmc_output text) D).Nodup) ∧
    (∀ D k, k ∈ dsFieldKeys (parse_pmc_output text) D ↔
      k ∈ kvKeysUnder none (pySplitLines text) D) ∧
    (∀ D, (dsFieldKeys (parse_pmc_output text) D).length =
      (kvKeysUnder none (pySplitLines text) D).dedup.length) ∧
    (∀ (st : Snapshot × Option String) (l : String),
      headerName (pyStrip l) = none → kvMatch (pyStrip l) = none →
      processLine st l = st) := by
  have hnodup : (snapKeys (parse_pmc_output text)).Nodup :=
    parse_keys_nodup (pySplitLines text) ([], none) (by simp [snapKeys])
  have hmem : ∀ D, D ∈ snapKeys (parse_pmc_output text) ↔
      D ∈ headerNamesOfLines (pySplitLines text) := by
    intro D
    unfold parse_pmc_output
    rw [parse_keys_mem (pySplitLines text) ([], none) D]
    simp [snapKeys]
  have hfnodup : ∀ D, (dsFieldKeys (parse_pmc_output text) D).Nodup := by
    intro D
    exact parse_fields_nodup (pySplitLines text) ([], none)
      (by intro c hc; exact Option.noConfusion hc)
      (by intro D0; simp [dsFieldKeys, snapGetD, snapGet, dkeys]) D
  have hfmem : ∀ D k, k ∈ dsFieldKeys (parse_pmc_output text) D ↔
      k ∈ kvKeysUnder none (pySplitLines text) D := by
    intro D k
    unfold parse_pmc_output
    rw [parse_fields_mem (pySplitLines text) ([], none) D k
      (by intro c hc; exact Option.noConfusion hc)]
    simp [dsFieldKeys, snapGetD, snapGet, dkeys]
  refine ⟨hnodup, hmem, ?_, hfnodup, hfmem, ?_, ?_⟩
  · have hperm : List.Perm (snapKeys (parse_pmc_output text))
        ((headerNamesOfLines (pySplitLines text)).dedup) := by
      rw [List.perm_ext_iff_of_nodup hnodup (List.nodup_dedup _)]
      intro a
      rw [List.mem_dedup]
      exact hmem a
    exact hperm.length_eq
  · intro D
    have hperm : List.Perm (dsFieldKeys (parse_pmc_output text) D)
        ((kvKeysUnder none (pySplitLines text) D).dedup) := by
      rw [List.perm_ext_iff_of_nodup (hfnodup D) (List.nodup_dedup _)]
      intro a
      rw [List.mem_dedup]
      exact hfmem D a
    exact hperm.length_eq
  · intro st l hh hk
    by_cases he : pyStrip l = ""
    · exact processLine_empty st l he
    · cases hc : st.2 with
      | none => exact processLine_none_cur st l he hh hc
      | some c => exact processLine_nokv st l c he hh hc hk

/-- Witness for C4 (amended): a recognized header line opens its
dataset, and a line matching neither pattern is ignored. -/
theorem c4_witness :
    "TIME_STATUS_NP" ∈
      snapKeys (parse_pmc_output "MANAGEMENT TIME_STATUS_NP\ngmPresent true") ∧
    processLine (([], none) : Snapshot × Option String) "!!!" = ([], none) := by
  have h := c4_parse_structure "MANAGEMENT TIME_STATUS_NP\ngmPresent true"
  exact ⟨(h.2.1 "TIME_STATUS_NP").2 (by decide),
    h.2.2.2.2.2.2 ([], none) "!!!" (by decide) (by decide)⟩
